import Mathlib

/-!
# Verification of `one_template.py` (OpenNebula template reconciler)

Shallow embedding of `plugins/modules/cloud/opennebula/one_template.py`.
The module is a single idempotent reconciliation routine: look a template up
by id or name, then create / update / delete / no-op, returning a `changed`
flag.  We embed the module's functions (`get_template`, `get_template_by_id`,
`get_template_by_name`, `get_template_instance`, `get_template_info`,
`create_template`, `update_template`, `delete_template`,
`get_connection_info`, `main`) as pure Lean functions over an explicit
remote-server state, and record the trace of RPC calls each run issues.

Python truthiness is modelled explicitly: an `int` is falsy iff it is `0` or
`None`; a `str` is falsy iff it is `""` or `None`; `str == None` is `False`.
Unhandled Python exceptions (`AttributeError` from dereferencing `None`,
`TypeError` from concatenating `None` with a string) are modelled as a
`crashed` outcome, distinct from a clean `module.fail_json` (`failed`).
-/

namespace OneTemplate

/-- A template resource as returned by the pool-info RPC
(`template.ID`, `template.NAME`, `template.TEMPLATE`, owner/group fields). -/
structure Template where
  ID : Int
  NAME : String
  TEMPLATE : String
  UNAME : String
  UID : Int
  GNAME : String
  GID : Int
deriving Repr, DecidableEq

/-- The RPC calls the module can issue against the remote server. -/
inductive RpcCall where
  /-- Embeds `client.templatepool.info(-3, -1, -1)` — read-only list of all templates. -/
  | poolInfo : RpcCall
  /-- Embeds `client.template.allocate(raw)` — create a template from a raw body. -/
  | allocate (raw : String) : RpcCall
  /-- Embeds `client.template.update(id, body, 0)` — full replacement of the body. -/
  | update (id : Int) (body : String) (replace : Int) : RpcCall
  /-- Embeds `client.template.delete(id)` — delete by id. -/
  | delete (id : Int) : RpcCall
deriving Repr, DecidableEq

/-- A call mutates remote state iff it is not the read-only pool listing. -/
def RpcCall.isMutating : RpcCall → Bool
  | .poolInfo => false
  | _ => true

/-- The mutating subsequence of a call trace. -/
def mutatingCalls (tr : List RpcCall) : List RpcCall :=
  tr.filter RpcCall.isMutating

/-- Modelled from the spec: the remote RPC server (the external `pyone` /
OpenNebula collaborator, out of scope of the repository).  It holds the pool
of templates, assigns fresh ids on creation, and may normalize stored bodies
(`norm`); `defUNAME`/`defUID`/`defGNAME`/`defGID` are the owner attributes the
server assigns to newly created templates.  The spec describes its surface as:
a list-all call, create-with-body, replace-body-by-id, and delete-by-id. -/
structure Server where
  pool : List Template
  nextId : Int
  norm : String → String
  defUNAME : String
  defUID : Int
  defGNAME : String
  defGID : Int

/-- Modelled from the spec: creation submits "the body with the name injected
as its first attribute"; the server parses that first `NAME = "..."` attribute
back out of the raw body.  The module always builds the raw body as
`NAME = "<name>"\n<data>`, so the name is the run of characters after the
8-character prefix `NAME = "` up to the next double quote. -/
def extractAllocatedName (raw : String) : String :=
  String.mk ((raw.data.drop 8).takeWhile (fun c => c ≠ '"'))

/-- Modelled from the spec: the server stores a new resource with a fresh id,
the name parsed from the submitted body, the normalized body, and the
server-assigned owner/group attributes. -/
def Server.allocate (srv : Server) (raw : String) : Server :=
  { srv with
    pool := srv.pool ++
      [{ ID := srv.nextId, NAME := extractAllocatedName raw,
         TEMPLATE := srv.norm raw, UNAME := srv.defUNAME, UID := srv.defUID,
         GNAME := srv.defGNAME, GID := srv.defGID }]
    nextId := srv.nextId + 1 }

/-- Modelled from the spec: replace-body-by-id stores the (normalized) new
body on the template with the given id, leaving everything else unchanged. -/
def Server.update (srv : Server) (tid : Int) (body : String) : Server :=
  { srv with
    pool := srv.pool.map fun t =>
      if t.ID = tid then { t with TEMPLATE := srv.norm body } else t }

/-- Modelled from the spec: delete-by-id removes the template with that id. -/
def Server.delete (srv : Server) (tid : Int) : Server :=
  { srv with pool := srv.pool.filter fun t => t.ID ≠ tid }

/-- Python truthiness of an optional integer: `None` and `0` are falsy. -/
def intTruthy : Option Int → Bool
  | none => false
  | some n => n ≠ 0

/-- Python truthiness of an optional string: `None` and `""` are falsy. -/
def strTruthy : Option String → Bool
  | none => false
  | some s => s ≠ ""

/-- Python `template.NAME == template_name` where `template_name` may be
`None`: comparing a string with `None` yields `False`. -/
def pyStrEq (s : String) : Option String → Bool
  | none => false
  | some s2 => s = s2

/-- Embeds `get_template(module, client, predicate)`: scan the fetched pool and
return the first template satisfying the predicate, else `None`.
(The pool fetch itself — `client.templatepool.info(-3, -1, -1)` — is recorded
in the caller's trace.) -/
def get_template (pool : List Template) (predicate : Template → Bool) :
    Option Template :=
  pool.find? predicate

/-- Embeds `get_template_by_id(module, client, template_id)`. -/
def get_template_by_id (pool : List Template) (template_id : Int) :
    Option Template :=
  get_template pool fun template => template.ID = template_id

/-- Embeds `get_template_by_name(module, client, template_name)`; `template_name`
may be Python `None` (then nothing matches). -/
def get_template_by_name (pool : List Template) (template_name : Option String) :
    Option Template :=
  get_template pool fun template => pyStrEq template.NAME template_name

/-- Embeds `get_template_instance(module, client, requested_id, requested_name)`:
`if requested_id:` — Python truthiness, so `id = 0` falls through to the
by-name lookup. -/
def get_template_instance (pool : List Template) (requested_id : Option Int)
    (requested_name : Option String) : Option Template :=
  if intTruthy requested_id then
    get_template_by_id pool (requested_id.getD 0)
  else
    get_template_by_name pool requested_name

/-- The `info` dict built by `get_template_info(template)`. -/
structure TemplateInfo where
  id : Int
  name : String
  template : String
  user_name : String
  user_id : Int
  group_name : String
  group_id : Int
deriving Repr, DecidableEq

/-- Embeds `get_template_info(template)` on a non-`None` template. -/
def get_template_info (template : Template) : TemplateInfo :=
  { id := template.ID, name := template.NAME, template := template.TEMPLATE,
    user_name := template.UNAME, user_id := template.UID,
    group_name := template.GNAME, group_id := template.GID }

/-- The result dict passed to `module.exit_json`: always a `changed` flag,
plus the template info fields except for the delete path. -/
structure ModuleResult where
  changed : Bool
  info : Option TemplateInfo
deriving Repr, DecidableEq

/-- How a run terminates: clean success (`module.exit_json`), a clean fatal
error (`module.fail_json`), or an unhandled Python exception. -/
inductive Outcome where
  | ok (res : ModuleResult)
  | failed (msg : String)
  | crashed (msg : String)
deriving Repr, DecidableEq

/-- The raw body `"NAME = \"" + name + "\"\n" + template_data` the module
submits on creation (only well-defined when `name` is a real string). -/
def allocBody (name : String) (template_data : String) : String :=
  "NAME = \"" ++ name ++ "\"\n" ++ template_data

/-- Embeds `create_template(module, client, name, template_data)`.
Normal mode with `name = None` crashes with `TypeError` while building the
allocate argument, before any RPC call.  Otherwise (or in check mode, where
the argument is never built) the module re-fetches by name; if that lookup
returns `None` — always the case in check mode, since nothing was created —
`get_template_info(None)` crashes with `AttributeError`. -/
def create_template (check_mode : Bool) (srv : Server) (name : Option String)
    (template_data : String) : Outcome × Server × List RpcCall :=
  if check_mode then
    match get_template_by_name srv.pool name with
    | none => (Outcome.crashed "AttributeError", srv, [RpcCall.poolInfo])
    | some t =>
        (Outcome.ok ⟨true, some (get_template_info t)⟩, srv, [RpcCall.poolInfo])
  else
    match name with
    | none => (Outcome.crashed "TypeError", srv, [])
    | some n =>
        let raw := allocBody n template_data
        let srv2 := srv.allocate raw
        let calls := [RpcCall.allocate raw, RpcCall.poolInfo]
        match get_template_by_name srv2.pool (some n) with
        | none => (Outcome.crashed "AttributeError", srv2, calls)
        | some t =>
            (Outcome.ok ⟨true, some (get_template_info t)⟩, srv2, calls)

/-- Embeds `update_template(module, client, template, template_data)`: outside check
mode submit the full replacement body, then re-fetch by id and set
`changed = template.TEMPLATE != result['template']`. -/
def update_template (check_mode : Bool) (srv : Server) (template : Template)
    (template_data : String) : Outcome × Server × List RpcCall :=
  let step : Server × List RpcCall :=
    if check_mode then (srv, [])
    else (srv.update template.ID template_data,
          [RpcCall.update template.ID template_data 0])
  let srv2 := step.1
  let calls := step.2 ++ [RpcCall.poolInfo]
  match get_template_by_id srv2.pool template.ID with
  | none => (Outcome.crashed "AttributeError", srv2, calls)
  | some t =>
      let info := get_template_info t
      (Outcome.ok ⟨template.TEMPLATE ≠ info.template, some info⟩, srv2, calls)

/-- Embeds `delete_template(module, client, template)`: `None` means idempotent
no-op with `changed=false`; otherwise delete by id (skipped in check mode)
and report `changed=true` without re-verifying. -/
def delete_template (check_mode : Bool) (srv : Server)
    (template : Option Template) : Outcome × Server × List RpcCall :=
  match template with
  | none => (Outcome.ok ⟨false, none⟩, srv, [])
  | some t =>
      if check_mode then (Outcome.ok ⟨true, none⟩, srv, [])
      else (Outcome.ok ⟨true, none⟩, srv.delete t.ID, [RpcCall.delete t.ID])

/-- The module parameters after `AnsibleModule` type validation
(`state` is one of `"present"`/`"absent"`), plus the check-mode flag. -/
structure Params where
  api_url : Option String
  api_username : Option String
  api_password : Option String
  id : Option Int
  name : Option String
  state : String
  template : Option String
  check_mode : Bool

/-- The process environment as seen by `os.environ.get`. -/
structure Env where
  ONE_URL : Option String
  ONE_USERNAME : Option String
  ONE_PASSWORD : Option String
  has_pyone : Bool

/-- The `auth_params` namedtuple. -/
structure Auth where
  url : String
  username : String
  password : String
deriving Repr, DecidableEq

/-- The failure message of `get_connection_info`. -/
def connParamsMsg : String :=
  "One or more connection parameters (api_url, api_username, api_password) were not specified"

/-- Embeds `get_connection_info(module)`: each connection parameter falls back to
its environment variable when falsy; fail if any of the three is still falsy
(Python `not (url and username and password)`). -/
def get_connection_info (p : Params) (env : Env) : Except String Auth :=
  let url := if strTruthy p.api_url then p.api_url else env.ONE_URL
  let username := if strTruthy p.api_username then p.api_username
                  else env.ONE_USERNAME
  let password := if strTruthy p.api_password then p.api_password
                  else env.ONE_PASSWORD
  if strTruthy url && strTruthy username && strTruthy password then
    Except.ok ⟨url.getD "", username.getD "", password.getD ""⟩
  else
    Except.error connParamsMsg

/-- The `mutually_exclusive=[['id', 'name']]` failure message produced by
`AnsibleModule` when both parameters are supplied (not `None`). -/
def mutexMsg : String := "parameters are mutually exclusive: id|name"

/-- The `fail_json` message for a truthy id that matched nothing. -/
def noTemplateMsg (id : Option Int) : String :=
  "There is no template with id=" ++ toString (id.getD 0)

/-- The `fail_json` message when creation is needed but no body was given. -/
def bodyRequiredMsg : String :=
  "To create a new template, the `template` attribute needs to be set."

/-- The body of `main()` after argument/credential validation and client
construction: the initial lookup (one pool-info call), the `needs_creation`
computation, and the four-way branch of the decision table.  Returns the
outcome, the final server state, and the RPC calls issued. -/
def reconcile (p : Params) (srv : Server) : Outcome × Server × List RpcCall :=
  let template := get_template_instance srv.pool p.id p.name
  if template.isNone && p.state ≠ "absent" && intTruthy p.id then
    (Outcome.failed (noTemplateMsg p.id), srv, [RpcCall.poolInfo])
  else
    let needs_creation :=
      template.isNone && p.state ≠ "absent" && !intTruthy p.id
    if p.state = "absent" then
      let r := delete_template p.check_mode srv template
      (r.1, r.2.1, RpcCall.poolInfo :: r.2.2)
    else if needs_creation then
      if !strTruthy p.template then
        (Outcome.failed bodyRequiredMsg, srv, [RpcCall.poolInfo])
      else
        let r := create_template p.check_mode srv p.name (p.template.getD "")
        (r.1, r.2.1, RpcCall.poolInfo :: r.2.2)
    else
      match template with
      | none => (Outcome.crashed "AttributeError", srv, [RpcCall.poolInfo])
      | some t =>
        if strTruthy p.template then
          let r := update_template p.check_mode srv t (p.template.getD "")
          (r.1, r.2.1, RpcCall.poolInfo :: r.2.2)
        else
          (Outcome.ok ⟨false, some (get_template_info t)⟩, srv,
           [RpcCall.poolInfo])

/-- Embeds `main()`: `AnsibleModule` mutual exclusion of `id`/`name`, the
pyone-presence check, connection-parameter resolution, then `reconcile`.
All three validation failures happen before any RPC call (empty trace). -/
def run (p : Params) (env : Env) (srv : Server) :
    Outcome × Server × List RpcCall :=
  if p.id.isSome && p.name.isSome then
    (Outcome.failed mutexMsg, srv, [])
  else if !env.has_pyone then
    (Outcome.failed "This module requires pyone to work!", srv, [])
  else
    match get_connection_info p env with
    | Except.error msg => (Outcome.failed msg, srv, [])
    | Except.ok _auth => reconcile p srv

/-! ## Concrete fixtures used by witnesses and counterexamples -/

/-- A well-formed environment: all three `ONE_*` variables set, pyone
importable. -/
def env0 : Env := ⟨some "http://one.example/RPC2", some "user", some "pass", true⟩

/-- An empty remote pool; fresh ids start at 100, bodies stored verbatim. -/
def srv0 : Server := ⟨[], 100, fun s => s, "oneadmin", 0, "oneadmin", 0⟩

/-- A template named `"x"` with id 7 and body `"OLD"`. -/
def t7 : Template := ⟨7, "x", "OLD", "oneadmin", 0, "oneadmin", 0⟩

/-- A pool holding exactly `t7`. -/
def srv7 : Server := ⟨[t7], 100, fun s => s, "oneadmin", 0, "oneadmin", 0⟩

/-- Baseline parameters: no explicit credentials, no selector, no body,
`state=present`, normal (non-check) mode. -/
def pBase : Params := ⟨none, none, none, none, none, "present", none, false⟩

/-- The auth record resolved from `env0` with no explicit parameters. -/
def auth0 : Auth := ⟨"http://one.example/RPC2", "user", "pass"⟩

/-- Request with `state=absent` targeting the absent name `"y"`. -/
def pAbsentY : Params := { pBase with name := some "y", state := "absent" }

/-- Request with `state=absent` targeting the present name `"x"`. -/
def pAbsentX : Params := { pBase with name := some "x", state := "absent" }

/-- Request with `state=present` with id `0` and a body. -/
def pZeroId : Params := { pBase with id := some 0, template := some "NEW" }

/-- Create/update request for name `"x"` with body `"NEW"`, normal mode. -/
def pNameX : Params := { pBase with name := some "x", template := some "NEW" }

/-- The same request in check mode. -/
def pNameXCheck : Params := { pNameX with check_mode := true }

/-! ## Helper lemmas -/

/-- When the mutual-exclusion, pyone and credential checks all pass, `run`
is the reconciliation body. -/
theorem run_eq_reconcile (p : Params) (env : Env) (srv : Server) (a : Auth)
    (hexcl : (p.id.isSome && p.name.isSome) = false)
    (hpy : env.has_pyone = true)
    (hconn : get_connection_info p env = Except.ok a) :
    run p env srv = reconcile p srv := by
  simp [run, hexcl, hpy, hconn]

/-- A by-name lookup with Python `None` as the requested name never matches
(`str == None` is `False`). -/
theorem get_template_by_name_none (pool : List Template) :
    get_template_by_name pool none = none := by
  simp [get_template_by_name, get_template, List.find?_eq_none, pyStrEq]

/-- A template returned by the selector lookup is a member of the pool. -/
theorem mem_of_get_template_instance (pool : List Template) (i : Option Int)
    (n : Option String) (t : Template)
    (h : get_template_instance pool i n = some t) : t ∈ pool := by
  unfold get_template_instance at h
  split at h <;> exact List.mem_of_find?_eq_some h

/-- A pool containing a template with a given id yields a successful
by-id lookup. -/
theorem get_template_by_id_isSome (pool : List Template) (t : Template)
    (ht : t ∈ pool) : ∃ u, get_template_by_id pool t.ID = some u := by
  have h : (pool.find? fun template => decide (template.ID = t.ID)).isSome :=
    List.find?_isSome.mpr ⟨t, ht, by simp⟩
  exact Option.isSome_iff_exists.mp h

/-- After a replace-body-by-id call, looking the same id up again returns the
previously found template with its body replaced by the normalized new one. -/
theorem get_template_by_id_update_found (srv : Server) (tid : Int)
    (body : String) (u : Template)
    (h : get_template_by_id srv.pool tid = some u) :
    get_template_by_id (srv.update tid body).pool tid =
      some { u with TEMPLATE := srv.norm body } := by
  unfold get_template_by_id get_template at h
  unfold get_template_by_id get_template Server.update
  generalize hnb : srv.norm body = nb at *
  generalize hl : srv.pool = l at *
  clear hnb hl
  induction l with
  | nil => simp [List.find?] at h
  | cons x xs ih =>
      by_cases hx : x.ID = tid
      · rw [List.find?_cons_of_pos _ (by simpa using hx)] at h
        obtain rfl : x = u := by simpa using h
        simp only [List.map_cons, if_pos hx]
        exact List.find?_cons_of_pos _ (by simpa using hx)
      · rw [List.find?_cons_of_neg _ (by simpa using hx)] at h
        simp only [List.map_cons, if_neg hx]
        rw [List.find?_cons_of_neg _ (by simpa using hx)]
        exact ih h

/-- Lemma: `create_template` either succeeds or crashes; it never reaches a clean
`fail_json`. -/
theorem create_template_never_fails (cm : Bool) (srv : Server)
    (name : Option String) (td : String) (msg : String) :
    (create_template cm srv name td).1 ≠ Outcome.failed msg := by
  unfold create_template
  split
  · split <;> simp
  · split
    · simp
    · dsimp only
      split <;> simp

/-- Lemma: `update_template` either succeeds or crashes — never a clean `fail_json` —
and its trace never contains a creation (allocate) call. -/
theorem update_template_shape (cm : Bool) (srv : Server) (t : Template)
    (td : String) :
    (∀ msg, (update_template cm srv t td).1 ≠ Outcome.failed msg) ∧
    (∀ raw, RpcCall.allocate raw ∉ (update_template cm srv t td).2.2) := by
  cases cm <;> unfold update_template <;> dsimp only <;>
    constructor <;> intro x <;> split <;> simp

/-! ## Claims -/

/-- C7: for every invocation with `state=present` where the selector matches
no resource, no (truthy) id was given, and no body was supplied, the run
fails with the "body required to create" message having issued only the
read-only pool lookup — no mutating RPC call. -/
theorem C7_body_required_before_mutation (p : Params) (env : Env)
    (srv : Server) (a : Auth)
    (hexcl : (p.id.isSome && p.name.isSome) = false)
    (hpy : env.has_pyone = true)
    (hconn : get_connection_info p env = Except.ok a)
    (hstate : p.state = "present")
    (hfound : get_template_instance srv.pool p.id p.name = none)
    (hid : intTruthy p.id = false)
    (hbody : strTruthy p.template = false) :
    run p env srv = (Outcome.failed bodyRequiredMsg, srv, [RpcCall.poolInfo]) ∧
    mutatingCalls (run p env srv).2.2 = [] := by
  have hrun := run_eq_reconcile p env srv a hexcl hpy hconn
  have hrec : reconcile p srv =
      (Outcome.failed bodyRequiredMsg, srv, [RpcCall.poolInfo]) := by
    simp [reconcile, hfound, hstate, hid, hbody]
  rw [hrun, hrec]
  exact ⟨rfl, rfl⟩

/-- C7 witness: the concrete no-selector, no-body, `state=present` request
against the one-template pool. -/
theorem C7_witness :
    run pBase env0 srv7 =
      (Outcome.failed bodyRequiredMsg, srv7, [RpcCall.poolInfo]) ∧
    mutatingCalls (run pBase env0 srv7).2.2 = [] :=
  C7_body_required_before_mutation pBase env0 srv7
    ⟨"http://one.example/RPC2", "user", "pass"⟩ rfl rfl rfl rfl rfl rfl rfl

/-- C6: with `state=absent`, a selector matching nothing yields `changed=false`
with only the read-only lookup in the trace, and a selector matching a
template yields (outside check mode) `changed=true` with a trace of exactly
the lookup followed by one delete-by-id call — in particular nothing is
re-fetched after the delete. -/
theorem C6_absent_semantics (p : Params) (env : Env) (srv : Server) (a : Auth)
    (hexcl : (p.id.isSome && p.name.isSome) = false)
    (hpy : env.has_pyone = true)
    (hconn : get_connection_info p env = Except.ok a)
    (hstate : p.state = "absent")
    (hcheck : p.check_mode = false) :
    (get_template_instance srv.pool p.id p.name = none →
      run p env srv = (Outcome.ok ⟨false, none⟩, srv, [RpcCall.poolInfo])) ∧
    (∀ t, get_template_instance srv.pool p.id p.name = some t →
      run p env srv = (Outcome.ok ⟨true, none⟩, srv.delete t.ID,
        [RpcCall.poolInfo, RpcCall.delete t.ID])) := by
  rw [run_eq_reconcile p env srv a hexcl hpy hconn]
  constructor
  · intro hfound
    simp [reconcile, hfound, hstate, delete_template]
  · intro t hfound
    simp [reconcile, hfound, hstate, delete_template, hcheck]

/-- C6 witness: deleting the missing `"y"` reports `changed=false` with no
mutating call; deleting the present `"x"` issues exactly one delete call. -/
theorem C6_witness :
    run pAbsentY env0 srv7 =
      (Outcome.ok ⟨false, none⟩, srv7, [RpcCall.poolInfo]) ∧
    run pAbsentX env0 srv7 =
      (Outcome.ok ⟨true, none⟩, srv7.delete 7,
       [RpcCall.poolInfo, RpcCall.delete 7]) :=
  ⟨(C6_absent_semantics pAbsentY env0 srv7 auth0 rfl rfl rfl rfl rfl).1 rfl,
   (C6_absent_semantics pAbsentX env0 srv7 auth0 rfl rfl rfl rfl rfl).2 t7 rfl⟩

/-- C9: a supplied id of `0` is falsy in Python, so the lookup is the by-name
lookup (with the name `None`), which finds nothing; with `state=present` the
run takes the creation branch — failing for the missing body, or calling
`create_template` when a body is present — and never emits the
"There is no template with id=0" failure. -/
theorem C9_zero_id_like_no_id (p : Params) (env : Env) (srv : Server)
    (a : Auth)
    (hid : p.id = some 0)
    (hname : p.name = none)
    (hpy : env.has_pyone = true)
    (hconn : get_connection_info p env = Except.ok a)
    (hstate : p.state = "present") :
    get_template_instance srv.pool p.id p.name =
      get_template_by_name srv.pool p.name ∧
    get_template_instance srv.pool p.id p.name = none ∧
    (strTruthy p.template = false →
      run p env srv =
        (Outcome.failed bodyRequiredMsg, srv, [RpcCall.poolInfo])) ∧
    (strTruthy p.template = true →
      run p env srv =
        (let r := create_template p.check_mode srv p.name (p.template.getD "")
         (r.1, r.2.1, RpcCall.poolInfo :: r.2.2))) ∧
    (run p env srv).1 ≠ Outcome.failed (noTemplateMsg p.id) := by
  have hinst : get_template_instance srv.pool p.id p.name =
      get_template_by_name srv.pool p.name := by
    simp [get_template_instance, hid, intTruthy]
  have hfound : get_template_instance srv.pool p.id p.name = none := by
    rw [hinst, hname, get_template_by_name_none]
  have hexcl : (p.id.isSome && p.name.isSome) = false := by
    simp [hname]
  have hid' : intTruthy p.id = false := by simp [hid, intTruthy]
  rw [run_eq_reconcile p env srv a hexcl hpy hconn]
  refine ⟨hinst, hfound, ?_, ?_, ?_⟩
  · intro hbody
    simp [reconcile, hfound, hstate, hid', hbody]
  · intro hbody
    simp [reconcile, hfound, hstate, hid', hbody]
  · by_cases hbody : strTruthy p.template = true
    · have hrec : reconcile p srv =
          (let r := create_template p.check_mode srv p.name (p.template.getD "")
           (r.1, r.2.1, RpcCall.poolInfo :: r.2.2)) := by
        simp [reconcile, hfound, hstate, hid', hbody]
      rw [hrec]
      exact create_template_never_fails _ _ _ _ _
    · have hbody' : strTruthy p.template = false := by
        simpa using hbody
      have hrec : reconcile p srv =
          (Outcome.failed bodyRequiredMsg, srv, [RpcCall.poolInfo]) := by
        simp [reconcile, hfound, hstate, hid', hbody']
      rw [hrec, hid]
      intro h
      exact absurd (Outcome.failed.inj h) (by decide)

/-- C9 witness: id 0, a body, `state=present`, empty pool — the run takes the
creation branch (crashing on the `None` name, not on a missing-id error). -/
theorem C9_witness :
    get_template_instance srv0.pool pZeroId.id pZeroId.name =
      get_template_by_name srv0.pool pZeroId.name ∧
    get_template_instance srv0.pool pZeroId.id pZeroId.name = none ∧
    (strTruthy pZeroId.template = false →
      run pZeroId env0 srv0 =
        (Outcome.failed bodyRequiredMsg, srv0, [RpcCall.poolInfo])) ∧
    (strTruthy pZeroId.template = true →
      run pZeroId env0 srv0 =
        (let r := create_template pZeroId.check_mode srv0 pZeroId.name
           (pZeroId.template.getD "")
         (r.1, r.2.1, RpcCall.poolInfo :: r.2.2))) ∧
    (run pZeroId env0 srv0).1 ≠ Outcome.failed (noTemplateMsg pZeroId.id) :=
  C9_zero_id_like_no_id pZeroId env0 srv0 auth0 rfl rfl rfl rfl rfl

/-- C10: in check mode, once creation is decided (`state=present`, nothing
found, falsy id, body given), the re-fetch by name inside `create_template`
finds nothing — nothing was created — and dereferencing the absent result
crashes with `AttributeError`; the trace holds only the two read-only pool
fetches, no mutating call, and no `changed=true` result is returned. -/
theorem C10_check_mode_create_crashes (p : Params) (env : Env) (srv : Server)
    (a : Auth)
    (hexcl : (p.id.isSome && p.name.isSome) = false)
    (hpy : env.has_pyone = true)
    (hconn : get_connection_info p env = Except.ok a)
    (hstate : p.state = "present")
    (hcheck : p.check_mode = true)
    (hid : intTruthy p.id = false)
    (hfound : get_template_instance srv.pool p.id p.name = none)
    (hbody : strTruthy p.template = true) :
    run p env srv = (Outcome.crashed "AttributeError", srv,
      [RpcCall.poolInfo, RpcCall.poolInfo]) ∧
    mutatingCalls (run p env srv).2.2 = [] := by
  have hbn : get_template_by_name srv.pool p.name = none := by
    simpa [get_template_instance, hid] using hfound
  rw [run_eq_reconcile p env srv a hexcl hpy hconn]
  have hrec : reconcile p srv = (Outcome.crashed "AttributeError", srv,
      [RpcCall.poolInfo, RpcCall.poolInfo]) := by
    simp [reconcile, hfound, hstate, hid, hbody, hcheck, create_template, hbn]
  rw [hrec]
  exact ⟨rfl, rfl⟩

/-- C10 witness: check-mode creation of `"x"` against the empty pool. -/
theorem C10_witness :
    run pNameXCheck env0 srv0 =
      (Outcome.crashed "AttributeError", srv0,
       [RpcCall.poolInfo, RpcCall.poolInfo]) ∧
    mutatingCalls (run pNameXCheck env0 srv0).2.2 = [] :=
  C10_check_mode_create_crashes pNameXCheck env0 srv0 auth0
    rfl rfl rfl rfl rfl rfl rfl rfl

/-- C5: for a normal-mode update (`state=present`, template found, body
given) the run submits one full-replacement call, re-fetches by id, and the
reported changed flag is true exactly when the previously observed body
string differs textually from the newly observed body string. -/
theorem C5_update_changed_iff_textual_diff (p : Params) (env : Env)
    (srv : Server) (a : Auth) (t : Template)
    (hexcl : (p.id.isSome && p.name.isSome) = false)
    (hpy : env.has_pyone = true)
    (hconn : get_connection_info p env = Except.ok a)
    (hstate : p.state = "present")
    (hcheck : p.check_mode = false)
    (hfound : get_template_instance srv.pool p.id p.name = some t)
    (hbody : strTruthy p.template = true) :
    ∀ tNew,
      get_template_by_id (srv.update t.ID (p.template.getD "")).pool t.ID =
        some tNew →
      run p env srv =
        (Outcome.ok ⟨decide (t.TEMPLATE ≠ tNew.TEMPLATE),
           some (get_template_info tNew)⟩,
         srv.update t.ID (p.template.getD ""),
         [RpcCall.poolInfo, RpcCall.update t.ID (p.template.getD "") 0,
          RpcCall.poolInfo]) ∧
      ((run p env srv).1 =
          Outcome.ok ⟨true, some (get_template_info tNew)⟩ ↔
        t.TEMPLATE ≠ tNew.TEMPLATE) := by
  intro tNew hnew
  have hmain : run p env srv =
      (Outcome.ok ⟨decide (t.TEMPLATE ≠ tNew.TEMPLATE),
         some (get_template_info tNew)⟩,
       srv.update t.ID (p.template.getD ""),
       [RpcCall.poolInfo, RpcCall.update t.ID (p.template.getD "") 0,
        RpcCall.poolInfo]) := by
    rw [run_eq_reconcile p env srv a hexcl hpy hconn]
    simp [reconcile, hfound, hstate, hbody, update_template, hcheck, hnew,
      get_template_info]
  refine ⟨hmain, ?_⟩
  rw [hmain]
  simp [decide_eq_true_eq]

/-- The re-fetched template in the C5 witness scenario: `t7` with its body
replaced by `"NEW"`. -/
def tNew7 : Template := ⟨7, "x", "NEW", "oneadmin", 0, "oneadmin", 0⟩

/-- C5 witness: updating `"x"` (body `"OLD"`) with `"NEW"` reports
changed=true, since the two observed body strings differ. -/
theorem C5_witness :
    run pNameX env0 srv7 =
      (Outcome.ok ⟨decide (t7.TEMPLATE ≠ tNew7.TEMPLATE),
         some (get_template_info tNew7)⟩,
       srv7.update 7 "NEW",
       [RpcCall.poolInfo, RpcCall.update 7 "NEW" 0, RpcCall.poolInfo]) ∧
    ((run pNameX env0 srv7).1 =
        Outcome.ok ⟨true, some (get_template_info tNew7)⟩ ↔
      t7.TEMPLATE ≠ tNew7.TEMPLATE) :=
  C5_update_changed_iff_textual_diff pNameX env0 srv7 auth0 t7
    rfl rfl rfl rfl rfl rfl rfl tNew7 rfl

/-- C8: each connection parameter falls back to its environment variable when
not (truthily) supplied; if any of the three is still unset after fallback,
the run fails with the connection-parameters message with an empty call
trace — before any network call. -/
theorem C8_connection_resolution (p : Params) (env : Env) (srv : Server)
    (hexcl : (p.id.isSome && p.name.isSome) = false)
    (hpy : env.has_pyone = true) :
    (∀ a, get_connection_info p env = Except.ok a →
      a = ⟨(if strTruthy p.api_url then p.api_url else env.ONE_URL).getD "",
           (if strTruthy p.api_username then p.api_username
            else env.ONE_USERNAME).getD "",
           (if strTruthy p.api_password then p.api_password
            else env.ONE_PASSWORD).getD ""⟩) ∧
    ((strTruthy (if strTruthy p.api_url then p.api_url else env.ONE_URL) &&
      strTruthy (if strTruthy p.api_username then p.api_username
                 else env.ONE_USERNAME) &&
      strTruthy (if strTruthy p.api_password then p.api_password
                 else env.ONE_PASSWORD)) = false →
      run p env srv = (Outcome.failed connParamsMsg, srv, [])) := by
  constructor
  · intro a ha
    by_cases hc :
        (strTruthy (if strTruthy p.api_url then p.api_url else env.ONE_URL) &&
         strTruthy (if strTruthy p.api_username then p.api_username
                    else env.ONE_USERNAME) &&
         strTruthy (if strTruthy p.api_password then p.api_password
                    else env.ONE_PASSWORD)) = true
    · have hok : get_connection_info p env = Except.ok
          ⟨(if strTruthy p.api_url then p.api_url else env.ONE_URL).getD "",
           (if strTruthy p.api_username then p.api_username
            else env.ONE_USERNAME).getD "",
           (if strTruthy p.api_password then p.api_password
            else env.ONE_PASSWORD).getD ""⟩ := by
        simp only [get_connection_info, hc, if_true]
      rw [hok] at ha
      injection ha with h
      exact h.symm
    · rw [Bool.not_eq_true] at hc
      have herr : get_connection_info p env = Except.error connParamsMsg := by
        simp only [get_connection_info, hc, Bool.false_eq_true, if_false]
      rw [herr] at ha
      cases ha
  · intro hcond
    have herr : get_connection_info p env = Except.error connParamsMsg := by
      simp only [get_connection_info, hcond, Bool.false_eq_true, if_false]
    simp [run, hexcl, hpy, herr]

/-- Parameters supplying only the password explicitly. -/
def pPw : Params := { pBase with api_password := some "pw" }

/-- An environment with no `ONE_PASSWORD` set. -/
def envNoPw : Env := { env0 with ONE_PASSWORD := none }

/-- C8 witness: with an explicit password the resolved auth uses it and falls
back to the environment for url/username; with no password anywhere the run
fails before any call. -/
theorem C8_witness :
    ((⟨"http://one.example/RPC2", "user", "pw"⟩ : Auth) =
      ⟨(if strTruthy pPw.api_url then pPw.api_url else env0.ONE_URL).getD "",
       (if strTruthy pPw.api_username then pPw.api_username
        else env0.ONE_USERNAME).getD "",
       (if strTruthy pPw.api_password then pPw.api_password
        else env0.ONE_PASSWORD).getD ""⟩) ∧
    run pBase envNoPw srv0 = (Outcome.failed connParamsMsg, srv0, []) :=
  ⟨(C8_connection_resolution pPw env0 srv0 rfl rfl).1
      ⟨"http://one.example/RPC2", "user", "pw"⟩ rfl,
   (C8_connection_resolution pBase envNoPw srv0 rfl rfl).2 rfl⟩

/-- C2 counterexample: `state=present`, name `"x"`, a body, and a template
named `"x"` already in the pool — the run succeeds with `changed=true` and
issues a mutating update call, refuting "fails … and no mutating RPC call is
performed". -/
theorem C2_counterexample :
    (run pNameX env0 srv7).1 =
      Outcome.ok ⟨true, some ⟨7, "x", "NEW", "oneadmin", 0, "oneadmin", 0⟩⟩ ∧
    mutatingCalls (run pNameX env0 srv7).2.2 = [RpcCall.update 7 "NEW" 0] := by
  decide

/-- C2 (amended): when `state=present` and a template with the requested name
already exists, the run adopts it instead of failing: with a body it takes
the update path on the existing template, without a body it reports the
current state with `changed=false`; no creation (allocate) call is ever
issued and the run never terminates in a clean failure. -/
theorem C2_amended_adopts_existing (p : Params) (env : Env) (srv : Server)
    (a : Auth) (n : String) (t : Template)
    (hid : p.id = none)
    (hname : p.name = some n)
    (hpy : env.has_pyone = true)
    (hconn : get_connection_info p env = Except.ok a)
    (hstate : p.state = "present")
    (hfound : get_template_by_name srv.pool (some n) = some t) :
    (strTruthy p.template = true →
      run p env srv =
        (let r := update_template p.check_mode srv t (p.template.getD "")
         (r.1, r.2.1, RpcCall.poolInfo :: r.2.2))) ∧
    (strTruthy p.template = false →
      run p env srv =
        (Outcome.ok ⟨false, some (get_template_info t)⟩, srv,
         [RpcCall.poolInfo])) ∧
    (∀ raw, RpcCall.allocate raw ∉ (run p env srv).2.2) ∧
    (∀ msg, (run p env srv).1 ≠ Outcome.failed msg) := by
  have hexcl : (p.id.isSome && p.name.isSome) = false := by simp [hid]
  have hfound' : get_template_instance srv.pool p.id p.name = some t := by
    simpa [get_template_instance, hid, intTruthy, hname] using hfound
  rw [run_eq_reconcile p env srv a hexcl hpy hconn]
  refine ⟨?_, ?_, ?_, ?_⟩
  · intro hbody
    simp [reconcile, hfound', hstate, hbody]
  · intro hbody
    simp [reconcile, hfound', hstate, hbody]
  · intro raw
    by_cases hbody : strTruthy p.template = true
    · have hrec : reconcile p srv =
          (let r := update_template p.check_mode srv t (p.template.getD "")
           (r.1, r.2.1, RpcCall.poolInfo :: r.2.2)) := by
        simp [reconcile, hfound', hstate, hbody]
      rw [hrec]
      simp only [List.mem_cons, not_or]
      exact ⟨by simp, (update_template_shape p.check_mode srv t
        (p.template.getD "")).2 raw⟩
    · have hbody' : strTruthy p.template = false := by simpa using hbody
      have hrec : reconcile p srv =
          (Outcome.ok ⟨false, some (get_template_info t)⟩, srv,
           [RpcCall.poolInfo]) := by
        simp [reconcile, hfound', hstate, hbody']
      rw [hrec]
      simp
  · intro msg
    by_cases hbody : strTruthy p.template = true
    · have hrec : reconcile p srv =
          (let r := update_template p.check_mode srv t (p.template.getD "")
           (r.1, r.2.1, RpcCall.poolInfo :: r.2.2)) := by
        simp [reconcile, hfound', hstate, hbody]
      rw [hrec]
      exact (update_template_shape p.check_mode srv t
        (p.template.getD "")).1 msg
    · have hbody' : strTruthy p.template = false := by simpa using hbody
      have hrec : reconcile p srv =
          (Outcome.ok ⟨false, some (get_template_info t)⟩, srv,
           [RpcCall.poolInfo]) := by
        simp [reconcile, hfound', hstate, hbody']
      rw [hrec]
      simp

/-- C2 witness: the concrete adoption scenario — updating the existing
`"x"` rather than failing. -/
theorem C2_witness :
    (strTruthy pNameX.template = true →
      run pNameX env0 srv7 =
        (let r := update_template pNameX.check_mode srv7 t7
           (pNameX.template.getD "")
         (r.1, r.2.1, RpcCall.poolInfo :: r.2.2))) ∧
    (strTruthy pNameX.template = false →
      run pNameX env0 srv7 =
        (Outcome.ok ⟨false, some (get_template_info t7)⟩, srv7,
         [RpcCall.poolInfo])) ∧
    (∀ raw, RpcCall.allocate raw ∉ (run pNameX env0 srv7).2.2) ∧
    (∀ msg, (run pNameX env0 srv7).1 ≠ Outcome.failed msg) :=
  C2_amended_adopts_existing pNameX env0 srv7 auth0 "x" t7
    rfl rfl rfl rfl rfl rfl

/-- Both selectors supplied at once. -/
def pBoth : Params := { pBase with id := some 7, name := some "x" }

/-- Neither selector supplied, `state=absent`. -/
def pAbsentNone : Params := { pBase with state := "absent" }

/-- C3 counterexample: an invocation with neither `id` nor `name`, in
`state=absent`, terminates successfully with `changed=false` — not with a
fatal request-shape error as the claim requires for the neither-given case. -/
theorem C3_counterexample :
    (run pAbsentNone env0 srv7).1 = Outcome.ok ⟨false, none⟩ ∧
    (run pAbsentNone env0 srv7).2.2 = [RpcCall.poolInfo] := by
  decide

/-- C3 (amended): supplying both `id` and `name` fails with the
mutual-exclusion error before any network call (empty trace); supplying
neither is not rejected as a request-shape error — the lookup proceeds by
the `None` name, finds nothing, and with `state=absent` the run succeeds
with `changed=false` and no mutating call. -/
theorem C3_amended_selector_shape :
    (∀ (p : Params) (env : Env) (srv : Server),
      p.id.isSome = true → p.name.isSome = true →
      run p env srv = (Outcome.failed mutexMsg, srv, [])) ∧
    (∀ (p : Params) (env : Env) (srv : Server) (a : Auth),
      p.id = none → p.name = none → p.state = "absent" →
      env.has_pyone = true → get_connection_info p env = Except.ok a →
      run p env srv = (Outcome.ok ⟨false, none⟩, srv, [RpcCall.poolInfo])) := by
  constructor
  · intro p env srv hi hn
    simp [run, hi, hn]
  · intro p env srv a hi hn hs hpy hconn
    rw [run_eq_reconcile p env srv a (by simp [hi]) hpy hconn]
    have hfound : get_template_instance srv.pool p.id p.name = none := by
      simp [get_template_instance, hi, intTruthy, hn,
        get_template_by_name_none]
    simp [reconcile, hfound, hs, delete_template]

/-- C3 witness: the concrete both-given failure and the concrete
neither-given absent success. -/
theorem C3_witness :
    run pBoth env0 srv7 = (Outcome.failed mutexMsg, srv7, []) ∧
    run pAbsentNone env0 srv7 =
      (Outcome.ok ⟨false, none⟩, srv7, [RpcCall.poolInfo]) :=
  ⟨C3_amended_selector_shape.1 pBoth env0 srv7 rfl rfl,
   C3_amended_selector_shape.2 pAbsentNone env0 srv7 auth0 rfl rfl rfl rfl rfl⟩

/-- C4 counterexample: `state=present` with the explicitly requested numeric
id `0` matching nothing does not fail with the "no template with id" message:
id `0` is falsy, so the creation branch is taken and the run crashes with
`TypeError` (concatenating the `None` name) after only the read-only
lookup. -/
theorem C4_counterexample :
    (run pZeroId env0 srv0).1 = Outcome.crashed "TypeError" ∧
    (run pZeroId env0 srv0).1 ≠ Outcome.failed (noTemplateMsg pZeroId.id) ∧
    (run pZeroId env0 srv0).2.2 = [RpcCall.poolInfo] := by
  decide

/-- C4 (amended): for every `state=present` invocation with an explicitly
requested nonzero id that matches no existing resource, the run fails with
"There is no template with id=…" and performs no mutating RPC call; a
requested id of `0` is instead treated as though no id were given and takes
the creation branch. -/
theorem C4_amended_nonzero_id (p : Params) (env : Env) (srv : Server)
    (a : Auth) (n : Int)
    (hid : p.id = some n)
    (hn : n ≠ 0)
    (hname : p.name = none)
    (hpy : env.has_pyone = true)
    (hconn : get_connection_info p env = Except.ok a)
    (hstate : p.state = "present")
    (hfound : get_template_by_id srv.pool n = none) :
    run p env srv =
      (Outcome.failed (noTemplateMsg p.id), srv, [RpcCall.poolInfo]) ∧
    mutatingCalls (run p env srv).2.2 = [] := by
  have hexcl : (p.id.isSome && p.name.isSome) = false := by simp [hname]
  have htr : intTruthy p.id = true := by simp [hid, intTruthy, hn]
  have hfound' : get_template_instance srv.pool p.id p.name = none := by
    simpa [get_template_instance, hid, intTruthy, hn] using hfound
  rw [run_eq_reconcile p env srv a hexcl hpy hconn]
  have hrec : reconcile p srv =
      (Outcome.failed (noTemplateMsg p.id), srv, [RpcCall.poolInfo]) := by
    simp [reconcile, hfound', hstate, htr]
  rw [hrec]
  exact ⟨rfl, rfl⟩

/-- A request for the non-existent id 42. -/
def pId42 : Params := { pBase with id := some 42 }

/-- C4 witness: requesting the absent id 42 with `state=present` fails with
the id message and no mutating call. -/
theorem C4_witness :
    run pId42 env0 srv0 =
      (Outcome.failed (noTemplateMsg pId42.id), srv0, [RpcCall.poolInfo]) ∧
    mutatingCalls (run pId42 env0 srv0).2.2 = [] :=
  C4_amended_nonzero_id pId42 env0 srv0 auth0 42
    rfl (by decide) rfl rfl rfl rfl rfl

/-- C1 (check-mode divergence): on the same remote state, check mode does
not compute the same `changed` flag and decision as a normal run for every
decision-table row.  Creation row (empty pool): the normal run returns
`changed=true` while the check-mode run crashes with `AttributeError`.
Update row (template `"x"` with body `"OLD"`, new body `"NEW"`): the normal
run reports `changed=true` while the check-mode run reports `changed=false`.
Check mode does issue zero mutating calls in both cases. -/
theorem C1_check_mode_not_equivalent :
    (run pNameX env0 srv0).1 =
      Outcome.ok ⟨true,
        some ⟨100, "x", "NAME = \"x\"\nNEW", "oneadmin", 0, "oneadmin", 0⟩⟩ ∧
    (run pNameXCheck env0 srv0).1 = Outcome.crashed "AttributeError" ∧
    mutatingCalls (run pNameXCheck env0 srv0).2.2 = [] ∧
    (run pNameX env0 srv7).1 =
      Outcome.ok ⟨true, some ⟨7, "x", "NEW", "oneadmin", 0, "oneadmin", 0⟩⟩ ∧
    (run pNameXCheck env0 srv7).1 =
      Outcome.ok ⟨false, some ⟨7, "x", "OLD", "oneadmin", 0, "oneadmin", 0⟩⟩ ∧
    mutatingCalls (run pNameXCheck env0 srv7).2.2 = [] := by
  decide

end OneTemplate
